import Mathlib

/-!
Sharp LQ079L1SX01 dual-link DSI panel driver.

A shallow embedding of `drivers/gpu/drm/panel/panel-sharp-lq079l1sx01.c`.

Calls into the kernel (regulators, GPIO, DSI host, delays) are recorded, in
program order, in a trace of `Effect`s.  The value such a call returns is
chosen by an environment `Env`, which sees the whole trace so far and the
call being made, so that every deterministic behaviour of the hardware is
covered.  `dev_err` messages go to a separate log and are not hardware
effects.  C `int` results are modelled as `Int`; the lifecycle code only
compares them with zero.
-/

namespace SharpPanel

/-! Kernel object handles -/

/-- A C pointer to a kernel object: `NULL`, a live object, or an
`ERR_PTR`-encoded errno. -/
inductive Ptr where
  | null
  | obj (id : Nat)
  | err (errno : Int)
  deriving DecidableEq, Repr

/-- Modelled from the spec: the macro `IS_ERR` lives in kernel headers outside
the driver; an acquire-by-name operation returns an opaque handle or an
error, and `IS_ERR(p)` tells the two apart. -/
def IS_ERR : Ptr → Bool
  | Ptr.err _ => true
  | _ => false

/-- Modelled from the spec: the macro `PTR_ERR` lives in kernel headers
outside the driver; it gives the error carried by a failed acquisition. -/
def PTR_ERR : Ptr → Int
  | Ptr.err e => e
  | _ => 0

/-- The DCS command codes used by the driver (`MIPI_DCS_*` of
`video/mipi_display.h`), kept symbolic. -/
inductive mipi_dcs where
  | MIPI_DCS_SET_DISPLAY_BRIGHTNESS
  | MIPI_DCS_WRITE_POWER_SAVE
  | MIPI_DCS_WRITE_CONTROL_DISPLAY
  deriving DecidableEq, Repr

/-- One call into the kernel made by a lifecycle operation. -/
inductive Effect where
  | regulator_enable (r : Ptr)
  | regulator_disable (r : Ptr)
  | gpiod_set_value_cansleep (desc : Ptr) (value : Int)
  | msleep (msecs : Nat)
  | usleep_range (min max : Nat)
  | mipi_dsi_dcs_exit_sleep_mode (dsi : Ptr)
  | mipi_dsi_dcs_enter_sleep_mode (dsi : Ptr)
  | mipi_dsi_dcs_set_display_on (dsi : Ptr)
  | mipi_dsi_dcs_set_display_off (dsi : Ptr)
  | mipi_dsi_dcs_write_buffer (dsi : Ptr) (cmd : mipi_dcs) (seq : List Nat)
  deriving DecidableEq, Repr

/-- The environment: given the trace so far and the call being made, the
`int` the call returns. -/
abbrev Env := List Effect → Effect → Int

/-- Observable state threaded through the lifecycle operations. -/
structure St where
  trace : List Effect
  log : List (String × List Int)
  deriving DecidableEq, Repr

/-- Perform a call: ask the environment for its result, then record it. -/
def call (env : Env) (e : Effect) (s : St) : Int × St :=
  (env s.trace e, { s with trace := s.trace ++ [e] })

/-- Perform a call whose result the driver does not look at. -/
def call_void (e : Effect) (s : St) : St :=
  { s with trace := s.trace ++ [e] }

/-- The logging call `dev_err(dev, fmt, args...)`: the message goes to the
log, not to the trace. -/
def dev_err (fmt : String) (args : List Int) (s : St) : St :=
  { s with log := s.log ++ [(fmt, args)] }

/-- The C type `enum drm_connector_type` as far as the driver uses it. -/
inductive connector_type where
  | unset
  | DRM_MODE_CONNECTOR_DSI
  deriving DecidableEq, Repr

/-- The `funcs` pointer of a `struct drm_panel`. -/
inductive panel_funcs where
  | unset
  | sharp_panel_funcs
  deriving DecidableEq, Repr

/-- The C type `struct drm_panel` (the embedded `base`). -/
structure drm_panel where
  dev : Ptr
  funcs : panel_funcs
  connector : connector_type
  deriving DecidableEq, Repr

/-- C `int` arithmetic: the value of a result after wrapping to 32 bits,
two's complement. -/
def wrap32 (x : Int) : Int := (x + 2 ^ 31) % 2 ^ 32 - 2 ^ 31

/-- C `int` addition. -/
def c_add (a b : Int) : Int := wrap32 (a + b)

/-- C `int` multiplication. -/
def c_mul (a b : Int) : Int := wrap32 (a * b)

/-- C `int` division: the quotient truncates toward zero. -/
def c_div (a b : Int) : Int := wrap32 (Int.tdiv a b)

/-- Conversion of an `int` to `u16`. -/
def to_u16 (x : Int) : Nat := (x % 2 ^ 16).toNat

/-- The C type `struct drm_display_mode` (the fields the driver initialises or writes,
and the name filled in by `drm_mode_set_name`). -/
structure drm_display_mode where
  clock : Int
  hdisplay : Nat
  hsync_start : Nat
  hsync_end : Nat
  htotal : Nat
  vdisplay : Nat
  vsync_start : Nat
  vsync_end : Nat
  vtotal : Nat
  width_mm : Nat
  height_mm : Nat
  type : Nat
  name : String
  deriving DecidableEq, Repr

/-- The C type `struct sharp_panel`. -/
structure sharp_panel where
  base : drm_panel
  link1 : Ptr
  link2 : Ptr
  avdd : Ptr
  vddio : Ptr
  vsp : Ptr
  vsn : Ptr
  reset_gpio : Ptr
  mode : Option drm_display_mode
  deriving DecidableEq, Repr

/-! Lifecycle operations -/

/-- The driver function `sharp_panel_reset`. -/
def sharp_panel_reset (sharp : sharp_panel) (s : St) : St :=
  let s := call_void (Effect.gpiod_set_value_cansleep sharp.reset_gpio 1) s
  let s := call_void (Effect.usleep_range 2000 3000) s
  let s := call_void (Effect.gpiod_set_value_cansleep sharp.reset_gpio 0) s
  call_void (Effect.usleep_range 2000 3000) s

/-- The driver function `sharp_panel_prepare`. -/
def sharp_panel_prepare (env : Env) (sharp : sharp_panel) (s : St) : Int × St :=
  let r := call env (Effect.regulator_enable sharp.vddio) s
  if r.1 < 0 then
    (r.1, dev_err "failed to enable vddio power supply\n" [] r.2)
  else
  let r := call env (Effect.regulator_enable sharp.avdd) r.2
  if r.1 < 0 then
    (r.1, dev_err "failed to enable avdd power supply\n" [] r.2)
  else
  let s := call_void (Effect.msleep 12) r.2
  let r := call env (Effect.regulator_enable sharp.vsp) s
  if r.1 < 0 then
    (r.1, dev_err "failed to enable vsp power supply\n" [] r.2)
  else
  let s := call_void (Effect.msleep 12) r.2
  let r := call env (Effect.regulator_enable sharp.vsn) s
  if r.1 < 0 then
    (r.1, dev_err "failed to enable vsn power supply\n" [] r.2)
  else
  let s := call_void (Effect.msleep 24) r.2
  let s := sharp_panel_reset sharp s
  let s := call_void (Effect.msleep 32) s
  (0, s)

/-- The macro `dsi_generic_write_seq(dsi, cmd, seq...)`: write the buffer
`{cmd, seq}`; a negative result makes the enclosing function return it,
otherwise the continuation `k` runs. -/
def dsi_generic_write_seq (env : Env) (dsi : Ptr) (cmd : mipi_dcs) (seq : List Nat)
    (s : St) (k : St → Int × St) : Int × St :=
  let r := call env (Effect.mipi_dsi_dcs_write_buffer dsi cmd seq) s
  if r.1 < 0 then (r.1, r.2) else k r.2

/-- Lines 104-139 of `sharp_panel_enable`: the statements written after the
`return 0;` of line 102. -/
def sharp_panel_enable_tail (env : Env) (sharp : sharp_panel) (s : St) : Int × St :=
  let r := call env (Effect.mipi_dsi_dcs_exit_sleep_mode sharp.link1) s
  if r.1 < 0 then
    (r.1, dev_err "failed to exit sleep mode link1: %d\n" [r.1] r.2)
  else
  let r := call env (Effect.mipi_dsi_dcs_exit_sleep_mode sharp.link2) r.2
  if r.1 < 0 then
    (r.1, dev_err "failed to exit sleep mode link2: %d\n" [r.1] r.2)
  else
  let s := call_void (Effect.msleep 120) r.2
  dsi_generic_write_seq env sharp.link1 mipi_dcs.MIPI_DCS_SET_DISPLAY_BRIGHTNESS [0xff] s fun s =>
  dsi_generic_write_seq env sharp.link2 mipi_dcs.MIPI_DCS_SET_DISPLAY_BRIGHTNESS [0xff] s fun s =>
  dsi_generic_write_seq env sharp.link1 mipi_dcs.MIPI_DCS_WRITE_POWER_SAVE [0x01] s fun s =>
  dsi_generic_write_seq env sharp.link2 mipi_dcs.MIPI_DCS_WRITE_POWER_SAVE [0x01] s fun s =>
  dsi_generic_write_seq env sharp.link1 mipi_dcs.MIPI_DCS_WRITE_CONTROL_DISPLAY [0x2C] s fun s =>
  dsi_generic_write_seq env sharp.link2 mipi_dcs.MIPI_DCS_WRITE_CONTROL_DISPLAY [0x2C] s fun s =>
  let r := call env (Effect.mipi_dsi_dcs_set_display_on sharp.link1) s
  if r.1 < 0 then
    (r.1, dev_err "failed to set display on link1: %d\n" [r.1] r.2)
  else
  let r := call env (Effect.mipi_dsi_dcs_set_display_on sharp.link2) r.2
  if r.1 < 0 then
    (r.1, dev_err "failed to set display on link2: %d\n" [r.1] r.2)
  else
  (0, r.2)

/-- The driver function `sharp_panel_enable`: line 102 is an unconditional `return 0;`, placed
before every other statement of the body. -/
def sharp_panel_enable (env : Env) (sharp : sharp_panel) (s : St) : Int × St :=
  if true then (0, s)
  else sharp_panel_enable_tail env sharp s

/-- The driver function `sharp_panel_disable`. -/
def sharp_panel_disable (env : Env) (sharp : sharp_panel) (s : St) : Int × St :=
  let r := call env (Effect.mipi_dsi_dcs_set_display_off sharp.link1) s
  if r.1 < 0 then
    (r.1, dev_err "failed to set display off link1: %d\n" [r.1] r.2)
  else
  let r := call env (Effect.mipi_dsi_dcs_set_display_off sharp.link2) r.2
  if r.1 < 0 then
    (r.1, dev_err "failed to set display off link2: %d\n" [r.1] r.2)
  else
  let s := call_void (Effect.msleep 100) r.2
  let r := call env (Effect.mipi_dsi_dcs_enter_sleep_mode sharp.link1) s
  if r.1 < 0 then
    (r.1, dev_err "failed to enter sleep mode link1: %d\n" [r.1] r.2)
  else
  let r := call env (Effect.mipi_dsi_dcs_enter_sleep_mode sharp.link2) r.2
  if r.1 < 0 then
    (r.1, dev_err "failed to enter sleep mode link2: %d\n" [r.1] r.2)
  else
  let s := call_void (Effect.msleep 150) r.2
  (0, s)

/-- The driver function `sharp_panel_unprepare`: the results of the four `regulator_disable`
calls are discarded. -/
def sharp_panel_unprepare (env : Env) (sharp : sharp_panel) (s : St) : Int × St :=
  let s := call_void (Effect.gpiod_set_value_cansleep sharp.reset_gpio 1) s
  let s := (call env (Effect.regulator_disable sharp.avdd) s).2
  let s := (call env (Effect.regulator_disable sharp.vddio) s).2
  let s := (call env (Effect.regulator_disable sharp.vsp) s).2
  let s := (call env (Effect.regulator_disable sharp.vsn) s).2
  (0, s)

/-! The fixed display mode -/

/-- The driver constant `default_mode`: every initialiser is the C constant expression of the
source, evaluated in `int` and converted to the type of the field. -/
def default_mode : drm_display_mode where
  clock := c_div (c_mul (c_mul (c_add (c_add (c_add 1536 136) 28) 28)
                               (c_add (c_add (c_add 2048 14) 8) 2)) 60) 1000
  hdisplay := to_u16 1536
  hsync_start := to_u16 (c_add 1536 136)
  hsync_end := to_u16 (c_add (c_add 1536 136) 28)
  htotal := to_u16 (c_add (c_add (c_add 1536 136) 28) 28)
  vdisplay := to_u16 2048
  vsync_start := to_u16 (c_add 2048 14)
  vsync_end := to_u16 (c_add (c_add 2048 14) 8)
  vtotal := to_u16 (c_add (c_add (c_add 2048 14) 8) 2)
  width_mm := to_u16 120
  height_mm := to_u16 160
  type := 0
  name := ""

/-- Modelled from the spec: `drm_mode_vrefresh` is kernel code outside the
driver; the spec gives the derived refresh rate as
`round(pixel_clock*1000 / (htotal*vtotal))`, rounding to the nearest integer:
`floor (num / den + 1/2)` computed on integers. -/
def drm_mode_vrefresh (m : drm_display_mode) : Int :=
  let num : Int := m.clock * 1000
  let den : Int := (m.htotal : Int) * (m.vtotal : Int)
  (2 * num + den) / (2 * den)

/-- Modelled from the spec: the flag `DRM_MODE_TYPE_PREFERRED` that marks the
preferred mode is defined in `uapi/drm/drm_mode.h`, outside the driver. -/
def DRM_MODE_TYPE_PREFERRED : Nat := 1 <<< 3

/-- Modelled from the spec: the flag `DRM_MODE_TYPE_DRIVER` that marks a mode
created by the driver is defined in `uapi/drm/drm_mode.h`, outside the
driver. -/
def DRM_MODE_TYPE_DRIVER : Nat := 1 <<< 6

/-- Modelled from the spec: the errno `ENOMEM` of the AllocationError is
defined in `uapi/asm-generic/errno-base.h`, outside the driver. -/
def ENOMEM : Int := 12

/-- Modelled from the spec: the errno `EPROBE_DEFER` of the transient NotReady
condition is defined in `linux/errno.h`, outside the driver. -/
def EPROBE_DEFER : Int := 517

/-- The C type `struct drm_connector`: the list of probed modes and the physical size
kept in `display_info`. -/
structure drm_connector where
  probed_modes : List drm_display_mode
  width_mm : Nat
  height_mm : Nat
  deriving DecidableEq, Repr

/-- What the DRM core does for `sharp_panel_get_modes`: whether the
allocation inside `drm_mode_duplicate` succeeds, and the name
`drm_mode_set_name` computes for a mode. -/
structure ModeEnv where
  alloc_ok : Bool
  mode_name : drm_display_mode → String

/-- Modelled from the spec: `drm_mode_duplicate` is kernel code outside the
driver; the descriptor is either materialised as a fresh copy or the host is
out of resources and `NULL` comes back. -/
def drm_mode_duplicate (env : ModeEnv) (m : drm_display_mode) : Option drm_display_mode :=
  if env.alloc_ok then some m else none

/-- Modelled from the spec: `drm_mode_set_name` is kernel code outside the
driver; it fills in `mode->name`, which is no part of the timing descriptor
of the spec, and nothing else.  The name it computes is left to the
environment. -/
def drm_mode_set_name (env : ModeEnv) (m : drm_display_mode) : drm_display_mode :=
  { m with name := env.mode_name m }

/-- Modelled from the spec: `drm_mode_probed_add` is kernel code outside the
driver; it appends the mode to the ordered sequence of modes reported for
the connector. -/
def drm_mode_probed_add (connector : drm_connector) (m : drm_display_mode) : drm_connector :=
  { connector with probed_modes := connector.probed_modes ++ [m] }

/-- The driver function `sharp_panel_get_modes`. -/
def sharp_panel_get_modes (env : ModeEnv) (connector : drm_connector) (s : St) :
    Int × drm_connector × St :=
  match drm_mode_duplicate env default_mode with
  | none =>
    (-ENOMEM, connector,
      dev_err "failed to add mode %ux%ux@%u
"
        [(default_mode.hdisplay : Int), (default_mode.vdisplay : Int),
          drm_mode_vrefresh default_mode] s)
  | some mode =>
    let mode := drm_mode_set_name env mode
    let mode := { mode with type := DRM_MODE_TYPE_DRIVER ||| DRM_MODE_TYPE_PREFERRED }
    let connector := { connector with width_mm := mode.width_mm }
    let connector := { connector with height_mm := mode.height_mm }
    let connector := drm_mode_probed_add connector mode
    (1, connector, s)

/-! Dual-link registration -/

/-- The C type `enum mipi_dsi_pixel_format` as far as the driver uses it. -/
inductive mipi_dsi_pixel_format where
  | MIPI_DSI_FMT_RGB888
  deriving DecidableEq, Repr

/-- The `MIPI_DSI_MODE_*` flags the driver sets. -/
inductive mipi_dsi_mode_flag where
  | MIPI_DSI_MODE_VIDEO
  | MIPI_DSI_MODE_LPM
  deriving DecidableEq, Repr

/-- The fields of `struct mipi_dsi_device` the probe writes; `mode_flags` is
the set of flags or-ed together. -/
structure dsi_settings where
  lanes : Nat
  format : mipi_dsi_pixel_format
  mode_flags : List mipi_dsi_mode_flag
  deriving DecidableEq, Repr

/-- What the rest of the kernel answers during one call of the probe.  A DSI
device is named by the id of the device-tree node it was created from. -/
structure ProbeEnv where
  link2 : Nat → Ptr
  devm_kzalloc_ok : Bool
  devm_regulator_get : Ptr → String → Ptr
  devm_gpiod_get_optional : Ptr → String → Ptr
  drm_panel_of_backlight : Int
  mipi_dsi_attach : Nat → Int

/-- The kernel state the probe reads and writes. -/
structure Kernel where
  dsi_bus : List Nat
  settings : Nat → Option dsi_settings
  heap : Nat → sharp_panel
  kzallocs : Nat
  drvdata : Nat → Ptr
  panels : List Nat
  attached : List Nat
  dev_refs : List Nat
  node_refs : List Nat

/-- A `struct sharp_panel` as `devm_kzalloc` hands it out: all zero. -/
def sharp_panel_zero : sharp_panel where
  base := { dev := Ptr.null, funcs := panel_funcs.unset, connector := connector_type.unset }
  link1 := Ptr.null
  link2 := Ptr.null
  avdd := Ptr.null
  vddio := Ptr.null
  vsp := Ptr.null
  vsn := Ptr.null
  reset_gpio := Ptr.null
  mode := none

/-- Read the `struct sharp_panel` at address `p`. -/
def rd (k : Kernel) (p : Nat) : sharp_panel := k.heap p

/-- Write through the pointer `p`: `sharp->field = value`. -/
def wr (k : Kernel) (p : Nat) (f : sharp_panel → sharp_panel) : Kernel :=
  { k with heap := Function.update k.heap p (f (k.heap p)) }

/-- Modelled from the spec: `of_parse_phandle` is kernel code outside the
driver; `of_parse_phandle(node, "link2", 0)` looks up the configured peer
reference of an endpoint and gives the node it points to, with a reference
taken, or `NULL`. -/
def of_parse_phandle (env : ProbeEnv) (node : Nat) (k : Kernel) : Ptr × Kernel :=
  match env.link2 node with
  | Ptr.obj np => (Ptr.obj np, { k with node_refs := np :: k.node_refs })
  | _ => (Ptr.null, k)

/-- Modelled from the spec: `of_node_put` is kernel code outside the driver;
it gives back the reference on the peer node. -/
def of_node_put (np : Nat) (k : Kernel) : Kernel :=
  { k with node_refs := k.node_refs.erase np }

/-- Modelled from the spec: `of_find_mipi_dsi_device_by_node` is kernel code
outside the driver; the discovery framework resolves a peer reference to the
link handle when that endpoint has been discovered (and takes a reference on
it), and answers "not yet available" (`NULL`) otherwise. -/
def of_find_mipi_dsi_device_by_node (np : Nat) (k : Kernel) : Ptr × Kernel :=
  if np ∈ k.dsi_bus then (Ptr.obj np, { k with dev_refs := np :: k.dev_refs })
  else (Ptr.null, k)

/-- Modelled from the spec: `put_device` is kernel code outside the driver;
`put_device(&dsi->dev)` releases a reference to the peer endpoint. -/
def put_device (d : Ptr) (k : Kernel) : Kernel :=
  match d with
  | Ptr.obj n => { k with dev_refs := k.dev_refs.erase n }
  | _ => k

/-- Modelled from the spec: `devm_kzalloc` is kernel code outside the driver;
`devm_kzalloc(dev, sizeof(*sharp), GFP_KERNEL)` creates the panel object,
fresh and zeroed, or gives `NULL` when the host is out of resources. -/
def devm_kzalloc (env : ProbeEnv) (k : Kernel) : Ptr × Kernel :=
  if env.devm_kzalloc_ok then
    (Ptr.obj k.kzallocs,
      { k with heap := Function.update k.heap k.kzallocs sharp_panel_zero,
               kzallocs := k.kzallocs + 1 })
  else (Ptr.null, k)

/-- Modelled from the spec: `drm_panel_add` is kernel code outside the driver;
`drm_panel_add(&sharp->base)` registers the displayable panel object. -/
def drm_panel_add (p : Nat) (k : Kernel) : Kernel :=
  { k with panels := k.panels ++ [p] }

/-- Modelled from the spec: `drm_panel_remove` is kernel code outside the
driver; `drm_panel_remove(&sharp->base)` takes the panel object off the
registry. -/
def drm_panel_remove (p : Nat) (k : Kernel) : Kernel :=
  { k with panels := k.panels.erase p }

/-- The driver function `sharp_panel_add`, on the object at address `p`. -/
def sharp_panel_add (env : ProbeEnv) (p : Nat) (k : Kernel) : Int × Kernel :=
  let dev := (rd k p).link1
  let k := wr k p fun sp => { sp with mode := some default_mode }
  let k := wr k p fun sp => { sp with avdd := env.devm_regulator_get dev "avdd" }
  if IS_ERR (rd k p).avdd then (PTR_ERR (rd k p).avdd, k) else
  let k := wr k p fun sp => { sp with vddio := env.devm_regulator_get dev "vddio" }
  if IS_ERR (rd k p).vddio then (PTR_ERR (rd k p).vddio, k) else
  let k := wr k p fun sp => { sp with vsp := env.devm_regulator_get dev "vsp" }
  if IS_ERR (rd k p).vsp then (PTR_ERR (rd k p).vsp, k) else
  let k := wr k p fun sp => { sp with vsn := env.devm_regulator_get dev "vsn" }
  if IS_ERR (rd k p).vsn then (PTR_ERR (rd k p).vsn, k) else
  let k := wr k p fun sp => { sp with reset_gpio := env.devm_gpiod_get_optional dev "reset" }
  if IS_ERR (rd k p).reset_gpio then (PTR_ERR (rd k p).reset_gpio, k) else
  let base : drm_panel :=
    { dev := dev,
      funcs := panel_funcs.sharp_panel_funcs,
      connector := connector_type.DRM_MODE_CONNECTOR_DSI }
  let k := wr k p fun sp => { sp with base := base }
  let ret := env.drm_panel_of_backlight
  if ret ≠ 0 then (ret, k) else
  let k := drm_panel_add p k
  (0, k)

/-- The driver function `sharp_panel_del`, on the object at address `p`. -/
def sharp_panel_del (p : Nat) (k : Kernel) : Kernel :=
  let k := if (rd k p).base.dev ≠ Ptr.null then drm_panel_remove p k else k
  if (rd k p).link2 ≠ Ptr.null then put_device (rd k p).link2 k else k

/-- The part of `sharp_panel_probe` from `mipi_dsi_attach` on (lines
327-335); `sharp` is the panel created by this call, if any. -/
def sharp_panel_probe_attach (env : ProbeEnv) (dsi : Nat) (secondary : Ptr) (sharp : Nat)
    (k : Kernel) : Int × Kernel :=
  let err := env.mipi_dsi_attach dsi
  if err < 0 then
    let k := if secondary ≠ Ptr.null then sharp_panel_del sharp k else k
    (err, k)
  else
    (0, { k with attached := k.attached ++ [dsi] })

/-- The part of `sharp_panel_probe` from line 307 on, once `secondary` is
known. -/
def sharp_panel_probe_register (env : ProbeEnv) (dsi : Nat) (secondary : Ptr) (k : Kernel) :
    Int × Kernel :=
  if secondary ≠ Ptr.null then
    match devm_kzalloc env k with
    | (Ptr.obj sharp, k) =>
      let k := { k with drvdata := Function.update k.drvdata dsi (Ptr.obj sharp) }
      let k := wr k sharp fun sp => { sp with link2 := secondary }
      let k := wr k sharp fun sp => { sp with link1 := Ptr.obj dsi }
      let r := sharp_panel_add env sharp k
      if r.1 < 0 then
        (r.1, put_device secondary r.2)
      else
        sharp_panel_probe_attach env dsi secondary sharp r.2
    | (_, k) => (-ENOMEM, put_device secondary k)
  else
    sharp_panel_probe_attach env dsi secondary 0 k

/-- The driver function `sharp_panel_probe` for the DSI device `dsi`. -/
def sharp_panel_probe (env : ProbeEnv) (dsi : Nat) (k : Kernel) : Int × Kernel :=
  let cfg : dsi_settings :=
    { lanes := 4,
      format := mipi_dsi_pixel_format.MIPI_DSI_FMT_RGB888,
      mode_flags := [mipi_dsi_mode_flag.MIPI_DSI_MODE_VIDEO,
                     mipi_dsi_mode_flag.MIPI_DSI_MODE_LPM] }
  let k := { k with settings := Function.update k.settings dsi (some cfg) }
  match of_parse_phandle env dsi k with
  | (Ptr.obj np, k) =>
    let r := of_find_mipi_dsi_device_by_node np k
    let k := of_node_put np r.2
    if r.1 = Ptr.null then (-EPROBE_DEFER, k)
    else sharp_panel_probe_register env dsi r.1 k
  | (_, k) => sharp_panel_probe_register env dsi Ptr.null k

/-- Everything the probe of the endpoint `dsi` acquires once its peer is
resolved succeeds: the panel allocation, the four regulators, the reset
line, the backlight lookup and the attach to the DSI host. -/
def acquisitions_ok (env : ProbeEnv) (dsi : Nat) : Bool :=
  env.devm_kzalloc_ok &&
  !IS_ERR (env.devm_regulator_get (Ptr.obj dsi) "avdd") &&
  !IS_ERR (env.devm_regulator_get (Ptr.obj dsi) "vddio") &&
  !IS_ERR (env.devm_regulator_get (Ptr.obj dsi) "vsp") &&
  !IS_ERR (env.devm_regulator_get (Ptr.obj dsi) "vsn") &&
  !IS_ERR (env.devm_gpiod_get_optional (Ptr.obj dsi) "reset") &&
  decide (env.drm_panel_of_backlight = 0) &&
  decide (0 ≤ env.mipi_dsi_attach dsi)

/-- The discovery framework makes the endpoint `dsi` known on the DSI bus. -/
def dsi_bus_add (dsi : Nat) (k : Kernel) : Kernel :=
  { k with dsi_bus := k.dsi_bus ++ [dsi] }

/-! The lifecycle driven by the display pipeline owner -/

/-- The calls whose result the driver checks: rail enables and DSI
commands. -/
def Effect.checked : Effect → Bool
  | Effect.regulator_enable _ => true
  | Effect.mipi_dsi_dcs_exit_sleep_mode _ => true
  | Effect.mipi_dsi_dcs_enter_sleep_mode _ => true
  | Effect.mipi_dsi_dcs_set_display_on _ => true
  | Effect.mipi_dsi_dcs_set_display_off _ => true
  | Effect.mipi_dsi_dcs_write_buffer _ _ _ => true
  | _ => false

/-- The calls made on a DSI link. -/
def Effect.on_link : Effect → Bool
  | Effect.mipi_dsi_dcs_exit_sleep_mode _ => true
  | Effect.mipi_dsi_dcs_enter_sleep_mode _ => true
  | Effect.mipi_dsi_dcs_set_display_on _ => true
  | Effect.mipi_dsi_dcs_set_display_off _ => true
  | Effect.mipi_dsi_dcs_write_buffer _ _ _ => true
  | _ => false

/-- The calls that drive the reset line. -/
def Effect.on_reset : Effect → Bool
  | Effect.gpiod_set_value_cansleep _ _ => true
  | _ => false

/-- The `regulator_enable` calls. -/
def Effect.is_enable : Effect → Bool
  | Effect.regulator_enable _ => true
  | _ => false

/-- The `regulator_disable` calls. -/
def Effect.is_disable : Effect → Bool
  | Effect.regulator_disable _ => true
  | _ => false

/-- Run a fixed sequence of calls after the trace `hist`, stopping at the
first checked call that returns a negative result: the value returned (that
result, or 0 when the sequence runs to its end) and the calls performed. -/
def run_until_failure (env : Env) : List Effect → List Effect → Int × List Effect
  | _, [] => (0, [])
  | hist, e :: rest =>
    if e.checked && decide (env hist e < 0) then (env hist e, [e])
    else
      let r := run_until_failure env (hist ++ [e]) rest
      (r.1, e :: r.2)

/-- The wake-up sequence of the spec (Enable, steps 1-8). -/
def enable_sequence (sharp : sharp_panel) : List Effect :=
  [Effect.mipi_dsi_dcs_exit_sleep_mode sharp.link1,
   Effect.mipi_dsi_dcs_exit_sleep_mode sharp.link2,
   Effect.msleep 120,
   Effect.mipi_dsi_dcs_write_buffer sharp.link1 mipi_dcs.MIPI_DCS_SET_DISPLAY_BRIGHTNESS [0xff],
   Effect.mipi_dsi_dcs_write_buffer sharp.link2 mipi_dcs.MIPI_DCS_SET_DISPLAY_BRIGHTNESS [0xff],
   Effect.mipi_dsi_dcs_write_buffer sharp.link1 mipi_dcs.MIPI_DCS_WRITE_POWER_SAVE [0x01],
   Effect.mipi_dsi_dcs_write_buffer sharp.link2 mipi_dcs.MIPI_DCS_WRITE_POWER_SAVE [0x01],
   Effect.mipi_dsi_dcs_write_buffer sharp.link1 mipi_dcs.MIPI_DCS_WRITE_CONTROL_DISPLAY [0x2C],
   Effect.mipi_dsi_dcs_write_buffer sharp.link2 mipi_dcs.MIPI_DCS_WRITE_CONTROL_DISPLAY [0x2C],
   Effect.mipi_dsi_dcs_set_display_on sharp.link1,
   Effect.mipi_dsi_dcs_set_display_on sharp.link2]

/-- The shut-down sequence of the spec (Disable, steps 1-4). -/
def disable_sequence (sharp : sharp_panel) : List Effect :=
  [Effect.mipi_dsi_dcs_set_display_off sharp.link1,
   Effect.mipi_dsi_dcs_set_display_off sharp.link2,
   Effect.msleep 100,
   Effect.mipi_dsi_dcs_enter_sleep_mode sharp.link1,
   Effect.mipi_dsi_dcs_enter_sleep_mode sharp.link2,
   Effect.msleep 150]

/-- A fully acquired panel: five distinct resources, link1 = device 1,
link2 = device 2. -/
def panel0 : sharp_panel where
  base := { dev := Ptr.obj 1, funcs := panel_funcs.sharp_panel_funcs,
            connector := connector_type.DRM_MODE_CONNECTOR_DSI }
  link1 := Ptr.obj 1
  link2 := Ptr.obj 2
  avdd := Ptr.obj 10
  vddio := Ptr.obj 11
  vsp := Ptr.obj 12
  vsn := Ptr.obj 13
  reset_gpio := Ptr.obj 20
  mode := some default_mode

/-- An environment in which every call succeeds. -/
def env_ok : Env := fun _ _ => 0

/-- An environment in which enabling the rail with handle `r` fails with
`-EIO` (-5) and every other call succeeds. -/
def env_rail_fails (r : Ptr) : Env := fun _ e =>
  if e = Effect.regulator_enable r then -5 else 0

/-- An environment in which the call `bad` fails with `-EIO` (-5) and every
other call succeeds. -/
def env_call_fails (bad : Effect) : Env := fun _ e =>
  if e = bad then -5 else 0

/-- A DRM core in which mode duplication succeeds and modes are named
"1536x2048". -/
def mode_env_ok : ModeEnv := { alloc_ok := true, mode_name := fun _ => "1536x2048" }

/-- A DRM core that is out of memory. -/
def mode_env_nomem : ModeEnv := { alloc_ok := false, mode_name := fun _ => "1536x2048" }

/-- A connector with no probed mode and no physical size yet. -/
def connector0 : drm_connector := { probed_modes := [], width_mm := 0, height_mm := 0 }

/-- A kernel in which nothing has been discovered, allocated or registered. -/
def kernel0 : Kernel where
  dsi_bus := []
  settings := fun _ => none
  heap := fun _ => sharp_panel_zero
  kzallocs := 0
  drvdata := fun _ => Ptr.null
  panels := []
  attached := []
  dev_refs := []
  node_refs := []

/-- The device tree of a panel whose endpoint 1 carries `link2 = <&endpoint 2>`
and whose endpoint 2 carries no peer reference, with every acquisition
succeeding. -/
def probe_env_ok : ProbeEnv where
  link2 := fun n => if n = 1 then Ptr.obj 2 else Ptr.null
  devm_kzalloc_ok := true
  devm_regulator_get := fun _ id =>
    if id = "avdd" then Ptr.obj 10
    else if id = "vddio" then Ptr.obj 11
    else if id = "vsp" then Ptr.obj 12
    else Ptr.obj 13
  devm_gpiod_get_optional := fun _ _ => Ptr.obj 20
  drm_panel_of_backlight := 0
  mipi_dsi_attach := fun _ => 0

/-- The same device tree on a host that cannot allocate the panel object. -/
def probe_env_nomem : ProbeEnv := { probe_env_ok with devm_kzalloc_ok := false }

/-- The empty observable state. -/
def St.init : St := { trace := [], log := [] }


/-! Shared lemmas -/

theorem disable_refines (env : Env) (sharp : sharp_panel) (s : St) :
    (sharp_panel_disable env sharp s).1 = (run_until_failure env s.trace (disable_sequence sharp)).1 ∧
    (sharp_panel_disable env sharp s).2.trace =
      s.trace ++ (run_until_failure env s.trace (disable_sequence sharp)).2 := by
  by_cases h1 : env s.trace (Effect.mipi_dsi_dcs_set_display_off sharp.link1) < 0
  · simp [sharp_panel_disable, call, dev_err, disable_sequence, run_until_failure,
      Effect.checked, h1]
  by_cases h2 : env (s.trace ++ [Effect.mipi_dsi_dcs_set_display_off sharp.link1])
      (Effect.mipi_dsi_dcs_set_display_off sharp.link2) < 0
  · simp [sharp_panel_disable, call, dev_err, disable_sequence, run_until_failure,
      Effect.checked, h1, h2]
  by_cases h3 : env (s.trace ++ [Effect.mipi_dsi_dcs_set_display_off sharp.link1,
      Effect.mipi_dsi_dcs_set_display_off sharp.link2, Effect.msleep 100])
      (Effect.mipi_dsi_dcs_enter_sleep_mode sharp.link1) < 0
  · simp [sharp_panel_disable, call, call_void, dev_err, disable_sequence, run_until_failure,
      Effect.checked, h1, h2, h3]
  by_cases h4 : env (s.trace ++ [Effect.mipi_dsi_dcs_set_display_off sharp.link1,
      Effect.mipi_dsi_dcs_set_display_off sharp.link2, Effect.msleep 100,
      Effect.mipi_dsi_dcs_enter_sleep_mode sharp.link1])
      (Effect.mipi_dsi_dcs_enter_sleep_mode sharp.link2) < 0
  · simp [sharp_panel_disable, call, call_void, dev_err, disable_sequence, run_until_failure,
      Effect.checked, h1, h2, h3, h4]
  · simp [sharp_panel_disable, call, call_void, disable_sequence,
      run_until_failure, Effect.checked, h1, h2, h3, h4]

/-! Prepare -/

/-- C1: when the four `regulator_enable` calls of a run of
`sharp_panel_prepare` succeed, the function returns 0, logs nothing, and adds
to the trace exactly: enable vddio, enable avdd, 12 ms, enable vsp, 12 ms,
enable vsn, 24 ms, reset line to 1, 2000-3000 us, reset line to 0,
2000-3000 us, 32 ms.  Of these calls the rail enables are vddio, avdd, vsp,
vsn in this order, the reset line is driven to 1 and then to 0 once, after
the enable of vsn, and no call is a `regulator_disable` or a DSI command. -/
theorem sharp_panel_prepare_success (env : Env) (sharp : sharp_panel) (s : St)
    (h1 : 0 ≤ env s.trace (Effect.regulator_enable sharp.vddio))
    (h2 : 0 ≤ env (s.trace ++ [Effect.regulator_enable sharp.vddio])
      (Effect.regulator_enable sharp.avdd))
    (h3 : 0 ≤ env (s.trace ++ [Effect.regulator_enable sharp.vddio,
      Effect.regulator_enable sharp.avdd, Effect.msleep 12]) (Effect.regulator_enable sharp.vsp))
    (h4 : 0 ≤ env (s.trace ++ [Effect.regulator_enable sharp.vddio,
      Effect.regulator_enable sharp.avdd, Effect.msleep 12, Effect.regulator_enable sharp.vsp,
      Effect.msleep 12]) (Effect.regulator_enable sharp.vsn)) :
    sharp_panel_prepare env sharp s =
      (0, { trace := s.trace ++
              [Effect.regulator_enable sharp.vddio,
               Effect.regulator_enable sharp.avdd,
               Effect.msleep 12,
               Effect.regulator_enable sharp.vsp,
               Effect.msleep 12,
               Effect.regulator_enable sharp.vsn,
               Effect.msleep 24,
               Effect.gpiod_set_value_cansleep sharp.reset_gpio 1,
               Effect.usleep_range 2000 3000,
               Effect.gpiod_set_value_cansleep sharp.reset_gpio 0,
               Effect.usleep_range 2000 3000,
               Effect.msleep 32],
            log := s.log }) ∧
    ((sharp_panel_prepare env sharp s).2.trace.drop s.trace.length).filter Effect.is_enable =
      [Effect.regulator_enable sharp.vddio, Effect.regulator_enable sharp.avdd,
       Effect.regulator_enable sharp.vsp, Effect.regulator_enable sharp.vsn] ∧
    ((sharp_panel_prepare env sharp s).2.trace.drop (s.trace.length + 6)).filter Effect.on_reset =
      [Effect.gpiod_set_value_cansleep sharp.reset_gpio 1,
       Effect.gpiod_set_value_cansleep sharp.reset_gpio 0] ∧
    ((sharp_panel_prepare env sharp s).2.trace.drop s.trace.length).filter Effect.on_reset =
      [Effect.gpiod_set_value_cansleep sharp.reset_gpio 1,
       Effect.gpiod_set_value_cansleep sharp.reset_gpio 0] ∧
    ((sharp_panel_prepare env sharp s).2.trace.drop s.trace.length).filter Effect.is_disable = [] ∧
    ((sharp_panel_prepare env sharp s).2.trace.drop s.trace.length).filter Effect.on_link = [] := by
  have e : sharp_panel_prepare env sharp s =
      (0, { trace := s.trace ++
              [Effect.regulator_enable sharp.vddio,
               Effect.regulator_enable sharp.avdd,
               Effect.msleep 12,
               Effect.regulator_enable sharp.vsp,
               Effect.msleep 12,
               Effect.regulator_enable sharp.vsn,
               Effect.msleep 24,
               Effect.gpiod_set_value_cansleep sharp.reset_gpio 1,
               Effect.usleep_range 2000 3000,
               Effect.gpiod_set_value_cansleep sharp.reset_gpio 0,
               Effect.usleep_range 2000 3000,
               Effect.msleep 32],
            log := s.log }) := by
    simp [sharp_panel_prepare, sharp_panel_reset, call, call_void, not_lt.mpr h1,
      not_lt.mpr h2, not_lt.mpr h3, not_lt.mpr h4]
  rw [e]
  refine ⟨rfl, ?_, ?_, ?_, ?_, ?_⟩
  · simp [Effect.is_enable]
  · simp [List.drop_append, Effect.on_reset]
  · simp [Effect.on_reset]
  · simp [Effect.is_disable]
  · simp [Effect.on_link]

/-- Witness of C1: the all-succeeding environment on a fully acquired
panel. -/
theorem sharp_panel_prepare_success_witness :
    sharp_panel_prepare env_ok panel0 St.init =
      (0, { trace :=
              [Effect.regulator_enable (Ptr.obj 11),
               Effect.regulator_enable (Ptr.obj 10),
               Effect.msleep 12,
               Effect.regulator_enable (Ptr.obj 12),
               Effect.msleep 12,
               Effect.regulator_enable (Ptr.obj 13),
               Effect.msleep 24,
               Effect.gpiod_set_value_cansleep (Ptr.obj 20) 1,
               Effect.usleep_range 2000 3000,
               Effect.gpiod_set_value_cansleep (Ptr.obj 20) 0,
               Effect.usleep_range 2000 3000,
               Effect.msleep 32],
            log := [] }) :=
  (sharp_panel_prepare_success env_ok panel0 St.init (by decide) (by decide) (by decide)
    (by decide)).1

/-- C2: when a `regulator_enable` of `sharp_panel_prepare` returns a negative
result, the rails being taken in the order vddio, avdd, vsp, vsn, the
function returns the result of the first failing call and the trace ends
with that call: no later rail is tried, the reset line is not driven, and no
`regulator_disable` is issued, so the rails enabled before stay enabled.  One
case per failing rail. -/
theorem sharp_panel_prepare_failure (env : Env) (sharp : sharp_panel) (s : St) :
    (env s.trace (Effect.regulator_enable sharp.vddio) < 0 →
      (sharp_panel_prepare env sharp s).1 = env s.trace (Effect.regulator_enable sharp.vddio) ∧
      (sharp_panel_prepare env sharp s).2.trace =
        s.trace ++ [Effect.regulator_enable sharp.vddio]) ∧
    (0 ≤ env s.trace (Effect.regulator_enable sharp.vddio) →
      env (s.trace ++ [Effect.regulator_enable sharp.vddio])
        (Effect.regulator_enable sharp.avdd) < 0 →
      (sharp_panel_prepare env sharp s).1 =
        env (s.trace ++ [Effect.regulator_enable sharp.vddio])
          (Effect.regulator_enable sharp.avdd) ∧
      (sharp_panel_prepare env sharp s).2.trace =
        s.trace ++ [Effect.regulator_enable sharp.vddio, Effect.regulator_enable sharp.avdd]) ∧
    (0 ≤ env s.trace (Effect.regulator_enable sharp.vddio) →
      0 ≤ env (s.trace ++ [Effect.regulator_enable sharp.vddio])
        (Effect.regulator_enable sharp.avdd) →
      env (s.trace ++ [Effect.regulator_enable sharp.vddio, Effect.regulator_enable sharp.avdd,
        Effect.msleep 12]) (Effect.regulator_enable sharp.vsp) < 0 →
      (sharp_panel_prepare env sharp s).1 =
        env (s.trace ++ [Effect.regulator_enable sharp.vddio,
          Effect.regulator_enable sharp.avdd, Effect.msleep 12])
          (Effect.regulator_enable sharp.vsp) ∧
      (sharp_panel_prepare env sharp s).2.trace =
        s.trace ++ [Effect.regulator_enable sharp.vddio, Effect.regulator_enable sharp.avdd,
          Effect.msleep 12, Effect.regulator_enable sharp.vsp]) ∧
    (0 ≤ env s.trace (Effect.regulator_enable sharp.vddio) →
      0 ≤ env (s.trace ++ [Effect.regulator_enable sharp.vddio])
        (Effect.regulator_enable sharp.avdd) →
      0 ≤ env (s.trace ++ [Effect.regulator_enable sharp.vddio,
        Effect.regulator_enable sharp.avdd, Effect.msleep 12])
        (Effect.regulator_enable sharp.vsp) →
      env (s.trace ++ [Effect.regulator_enable sharp.vddio, Effect.regulator_enable sharp.avdd,
        Effect.msleep 12, Effect.regulator_enable sharp.vsp, Effect.msleep 12])
        (Effect.regulator_enable sharp.vsn) < 0 →
      (sharp_panel_prepare env sharp s).1 =
        env (s.trace ++ [Effect.regulator_enable sharp.vddio,
          Effect.regulator_enable sharp.avdd, Effect.msleep 12,
          Effect.regulator_enable sharp.vsp, Effect.msleep 12])
          (Effect.regulator_enable sharp.vsn) ∧
      (sharp_panel_prepare env sharp s).2.trace =
        s.trace ++ [Effect.regulator_enable sharp.vddio, Effect.regulator_enable sharp.avdd,
          Effect.msleep 12, Effect.regulator_enable sharp.vsp, Effect.msleep 12,
          Effect.regulator_enable sharp.vsn]) ∧
    ((sharp_panel_prepare env sharp s).1 < 0 →
      ((sharp_panel_prepare env sharp s).2.trace.drop s.trace.length).filter
          Effect.on_reset = [] ∧
      ((sharp_panel_prepare env sharp s).2.trace.drop s.trace.length).filter
          Effect.is_disable = [] ∧
      ((sharp_panel_prepare env sharp s).2.trace.drop s.trace.length).filter
          Effect.on_link = []) := by
  refine ⟨?_, ?_, ?_, ?_, ?_⟩
  · intro h1
    simp [sharp_panel_prepare, call, dev_err, h1]
  · intro h1 h2
    simp [sharp_panel_prepare, call, dev_err, not_lt.mpr h1, h2]
  · intro h1 h2 h3
    simp [sharp_panel_prepare, call, call_void, dev_err, not_lt.mpr h1, not_lt.mpr h2, h3]
  · intro h1 h2 h3 h4
    simp [sharp_panel_prepare, call, call_void, dev_err, not_lt.mpr h1, not_lt.mpr h2,
      not_lt.mpr h3, h4]
  · by_cases h1 : env s.trace (Effect.regulator_enable sharp.vddio) < 0
    · simp [sharp_panel_prepare, call, dev_err, h1, Effect.on_reset, Effect.is_disable,
        Effect.on_link]
    by_cases h2 : env (s.trace ++ [Effect.regulator_enable sharp.vddio])
        (Effect.regulator_enable sharp.avdd) < 0
    · simp [sharp_panel_prepare, call, dev_err, h1, h2, Effect.on_reset, Effect.is_disable,
        Effect.on_link]
    by_cases h3 : env (s.trace ++ [Effect.regulator_enable sharp.vddio,
        Effect.regulator_enable sharp.avdd, Effect.msleep 12])
        (Effect.regulator_enable sharp.vsp) < 0
    · simp [sharp_panel_prepare, call, call_void, dev_err, h1, h2, h3, Effect.on_reset,
        Effect.is_disable, Effect.on_link]
    by_cases h4 : env (s.trace ++ [Effect.regulator_enable sharp.vddio,
        Effect.regulator_enable sharp.avdd, Effect.msleep 12, Effect.regulator_enable sharp.vsp,
        Effect.msleep 12]) (Effect.regulator_enable sharp.vsn) < 0
    · simp [sharp_panel_prepare, call, call_void, dev_err, h1, h2, h3, h4, Effect.on_reset,
        Effect.is_disable, Effect.on_link]
    · simp [sharp_panel_prepare, sharp_panel_reset, call, call_void, h1, h2, h3, h4]

/-- Witness of C2: the rail vsp fails with -5; vddio and avdd have been
enabled, vsn is not tried and the reset line is not driven. -/
theorem sharp_panel_prepare_failure_witness :
    (0 ≤ env_rail_fails (Ptr.obj 12) St.init.trace (Effect.regulator_enable panel0.vddio) ∧
     0 ≤ env_rail_fails (Ptr.obj 12) (St.init.trace ++ [Effect.regulator_enable panel0.vddio])
        (Effect.regulator_enable panel0.avdd) ∧
     env_rail_fails (Ptr.obj 12) (St.init.trace ++ [Effect.regulator_enable panel0.vddio,
        Effect.regulator_enable panel0.avdd, Effect.msleep 12])
        (Effect.regulator_enable panel0.vsp) < 0) ∧
    (sharp_panel_prepare (env_rail_fails (Ptr.obj 12)) panel0 St.init).1 = -5 ∧
    (sharp_panel_prepare (env_rail_fails (Ptr.obj 12)) panel0 St.init).2.trace =
      [Effect.regulator_enable (Ptr.obj 11), Effect.regulator_enable (Ptr.obj 10),
       Effect.msleep 12, Effect.regulator_enable (Ptr.obj 12)] :=
  ⟨by decide,
   (sharp_panel_prepare_failure (env_rail_fails (Ptr.obj 12)) panel0 St.init).2.2.1
     (by decide) (by decide) (by decide)⟩

/-! Unprepare -/

/-- C5: whatever the state and whatever the `regulator_disable` calls return,
`sharp_panel_unprepare` returns 0 and adds to the trace exactly: reset line
to 1, then `regulator_disable` on avdd, vddio, vsp, vsn, once each; it logs
nothing, enables no rail and issues no DSI command. -/
theorem sharp_panel_unprepare_spec (env : Env) (sharp : sharp_panel) (s : St) :
    sharp_panel_unprepare env sharp s =
      (0, { trace := s.trace ++
              [Effect.gpiod_set_value_cansleep sharp.reset_gpio 1,
               Effect.regulator_disable sharp.avdd,
               Effect.regulator_disable sharp.vddio,
               Effect.regulator_disable sharp.vsp,
               Effect.regulator_disable sharp.vsn],
            log := s.log }) ∧
    ((sharp_panel_unprepare env sharp s).2.trace.drop s.trace.length).filter
        Effect.is_enable = [] ∧
    ((sharp_panel_unprepare env sharp s).2.trace.drop s.trace.length).filter
        Effect.on_link = [] := by
  refine ⟨?_, ?_, ?_⟩
  · simp [sharp_panel_unprepare, call, call_void]
  · simp [sharp_panel_unprepare, call, call_void, Effect.is_enable]
  · simp [sharp_panel_unprepare, call, call_void, Effect.on_link]

/-! Enable -/

/-- C10: `sharp_panel_enable` as written returns 0 and leaves trace and log
as they were, for every panel and every environment: no exit-sleep, no
brightness, power-save or control-display write, no display-on, no wait.  The
statements after the `return 0;` never run. -/
theorem sharp_panel_enable_is_noop (env : Env) (sharp : sharp_panel) (s : St) :
    sharp_panel_enable env sharp s = (0, s) := by
  simp [sharp_panel_enable]

/-- The statements written after the early return of `sharp_panel_enable`
would, in an environment where every call succeeds, perform the wake-up
sequence of the spec and return 0. -/
theorem sharp_panel_enable_tail_success (env : Env) (sharp : sharp_panel) (s : St)
    (hall : ∀ hist e, 0 ≤ env hist e) :
    sharp_panel_enable_tail env sharp s =
      (0, { trace := s.trace ++ enable_sequence sharp, log := s.log }) := by
  have hn : ∀ hist e, ¬ env hist e < 0 := fun hist e => not_lt.mpr (hall hist e)
  simp [sharp_panel_enable_tail, dsi_generic_write_seq, call, call_void, enable_sequence, hn]

/-- C3 (evaluation of the code): with every DSI command succeeding on a fully
acquired panel, `sharp_panel_enable` returns 0 with an empty trace, which is
not the wake-up sequence; the statements after its early return, run on the
same input, perform exactly that sequence: exit-sleep on link1, on link2,
120 ms, brightness 0xFF, power-save 0x01 and control-display 0x2C each on
link1 then link2, display-on on link1, on link2. -/
theorem sharp_panel_enable_skips_wake_sequence :
    sharp_panel_enable env_ok panel0 St.init = (0, St.init) ∧
    (sharp_panel_enable env_ok panel0 St.init).2.trace ≠ enable_sequence panel0 ∧
    sharp_panel_enable_tail env_ok panel0 St.init =
      (0, { trace :=
              [Effect.mipi_dsi_dcs_exit_sleep_mode (Ptr.obj 1),
               Effect.mipi_dsi_dcs_exit_sleep_mode (Ptr.obj 2),
               Effect.msleep 120,
               Effect.mipi_dsi_dcs_write_buffer (Ptr.obj 1)
                 mipi_dcs.MIPI_DCS_SET_DISPLAY_BRIGHTNESS [0xff],
               Effect.mipi_dsi_dcs_write_buffer (Ptr.obj 2)
                 mipi_dcs.MIPI_DCS_SET_DISPLAY_BRIGHTNESS [0xff],
               Effect.mipi_dsi_dcs_write_buffer (Ptr.obj 1)
                 mipi_dcs.MIPI_DCS_WRITE_POWER_SAVE [0x01],
               Effect.mipi_dsi_dcs_write_buffer (Ptr.obj 2)
                 mipi_dcs.MIPI_DCS_WRITE_POWER_SAVE [0x01],
               Effect.mipi_dsi_dcs_write_buffer (Ptr.obj 1)
                 mipi_dcs.MIPI_DCS_WRITE_CONTROL_DISPLAY [0x2C],
               Effect.mipi_dsi_dcs_write_buffer (Ptr.obj 2)
                 mipi_dcs.MIPI_DCS_WRITE_CONTROL_DISPLAY [0x2C],
               Effect.mipi_dsi_dcs_set_display_on (Ptr.obj 1),
               Effect.mipi_dsi_dcs_set_display_on (Ptr.obj 2)],
            log := [] }) := by
  refine ⟨by decide, by decide, by decide⟩

/-! Disable -/

/-- C4: for every environment, `sharp_panel_disable` performs the fixed
sequence display-off link1, display-off link2, 100 ms, enter-sleep link1,
enter-sleep link2, 150 ms up to and including the first DSI command that
returns a negative result, and returns that result; it performs the whole
sequence and returns 0 when none does.  It returns 0 exactly when the four
commands succeed, a run that returns 0 contains both waits, and an
enter-sleep is issued only after display-off succeeded on both links. -/
theorem sharp_panel_disable_spec (env : Env) (sharp : sharp_panel) (s : St) :
    ((sharp_panel_disable env sharp s).1 =
        (run_until_failure env s.trace (disable_sequence sharp)).1 ∧
      (sharp_panel_disable env sharp s).2.trace =
        s.trace ++ (run_until_failure env s.trace (disable_sequence sharp)).2) ∧
    (env s.trace (Effect.mipi_dsi_dcs_set_display_off sharp.link1) < 0 →
      (sharp_panel_disable env sharp s).1 =
        env s.trace (Effect.mipi_dsi_dcs_set_display_off sharp.link1) ∧
      (sharp_panel_disable env sharp s).2.trace =
        s.trace ++ [Effect.mipi_dsi_dcs_set_display_off sharp.link1]) ∧
    (0 ≤ env s.trace (Effect.mipi_dsi_dcs_set_display_off sharp.link1) →
      env (s.trace ++ [Effect.mipi_dsi_dcs_set_display_off sharp.link1])
        (Effect.mipi_dsi_dcs_set_display_off sharp.link2) < 0 →
      (sharp_panel_disable env sharp s).1 =
        env (s.trace ++ [Effect.mipi_dsi_dcs_set_display_off sharp.link1])
          (Effect.mipi_dsi_dcs_set_display_off sharp.link2) ∧
      (sharp_panel_disable env sharp s).2.trace =
        s.trace ++ [Effect.mipi_dsi_dcs_set_display_off sharp.link1,
          Effect.mipi_dsi_dcs_set_display_off sharp.link2]) ∧
    (0 ≤ env s.trace (Effect.mipi_dsi_dcs_set_display_off sharp.link1) →
      0 ≤ env (s.trace ++ [Effect.mipi_dsi_dcs_set_display_off sharp.link1])
        (Effect.mipi_dsi_dcs_set_display_off sharp.link2) →
      env (s.trace ++ [Effect.mipi_dsi_dcs_set_display_off sharp.link1,
        Effect.mipi_dsi_dcs_set_display_off sharp.link2, Effect.msleep 100])
        (Effect.mipi_dsi_dcs_enter_sleep_mode sharp.link1) < 0 →
      (sharp_panel_disable env sharp s).1 =
        env (s.trace ++ [Effect.mipi_dsi_dcs_set_display_off sharp.link1,
          Effect.mipi_dsi_dcs_set_display_off sharp.link2, Effect.msleep 100])
          (Effect.mipi_dsi_dcs_enter_sleep_mode sharp.link1) ∧
      (sharp_panel_disable env sharp s).2.trace =
        s.trace ++ [Effect.mipi_dsi_dcs_set_display_off sharp.link1,
          Effect.mipi_dsi_dcs_set_display_off sharp.link2, Effect.msleep 100,
          Effect.mipi_dsi_dcs_enter_sleep_mode sharp.link1]) ∧
    (0 ≤ env s.trace (Effect.mipi_dsi_dcs_set_display_off sharp.link1) →
      0 ≤ env (s.trace ++ [Effect.mipi_dsi_dcs_set_display_off sharp.link1])
        (Effect.mipi_dsi_dcs_set_display_off sharp.link2) →
      0 ≤ env (s.trace ++ [Effect.mipi_dsi_dcs_set_display_off sharp.link1,
        Effect.mipi_dsi_dcs_set_display_off sharp.link2, Effect.msleep 100])
        (Effect.mipi_dsi_dcs_enter_sleep_mode sharp.link1) →
      env (s.trace ++ [Effect.mipi_dsi_dcs_set_display_off sharp.link1,
        Effect.mipi_dsi_dcs_set_display_off sharp.link2, Effect.msleep 100,
        Effect.mipi_dsi_dcs_enter_sleep_mode sharp.link1])
        (Effect.mipi_dsi_dcs_enter_sleep_mode sharp.link2) < 0 →
      (sharp_panel_disable env sharp s).1 =
        env (s.trace ++ [Effect.mipi_dsi_dcs_set_display_off sharp.link1,
          Effect.mipi_dsi_dcs_set_display_off sharp.link2, Effect.msleep 100,
          Effect.mipi_dsi_dcs_enter_sleep_mode sharp.link1])
          (Effect.mipi_dsi_dcs_enter_sleep_mode sharp.link2) ∧
      (sharp_panel_disable env sharp s).2.trace =
        s.trace ++ [Effect.mipi_dsi_dcs_set_display_off sharp.link1,
          Effect.mipi_dsi_dcs_set_display_off sharp.link2, Effect.msleep 100,
          Effect.mipi_dsi_dcs_enter_sleep_mode sharp.link1,
          Effect.mipi_dsi_dcs_enter_sleep_mode sharp.link2]) ∧
    ((sharp_panel_disable env sharp s).1 = 0 ↔
      (0 ≤ env s.trace (Effect.mipi_dsi_dcs_set_display_off sharp.link1) ∧
       0 ≤ env (s.trace ++ [Effect.mipi_dsi_dcs_set_display_off sharp.link1])
        (Effect.mipi_dsi_dcs_set_display_off sharp.link2) ∧
       0 ≤ env (s.trace ++ [Effect.mipi_dsi_dcs_set_display_off sharp.link1,
        Effect.mipi_dsi_dcs_set_display_off sharp.link2, Effect.msleep 100])
        (Effect.mipi_dsi_dcs_enter_sleep_mode sharp.link1) ∧
       0 ≤ env (s.trace ++ [Effect.mipi_dsi_dcs_set_display_off sharp.link1,
        Effect.mipi_dsi_dcs_set_display_off sharp.link2, Effect.msleep 100,
        Effect.mipi_dsi_dcs_enter_sleep_mode sharp.link1])
        (Effect.mipi_dsi_dcs_enter_sleep_mode sharp.link2))) ∧
    ((sharp_panel_disable env sharp s).1 = 0 →
      sharp_panel_disable env sharp s =
        (0, { trace := s.trace ++
                [Effect.mipi_dsi_dcs_set_display_off sharp.link1,
                 Effect.mipi_dsi_dcs_set_display_off sharp.link2,
                 Effect.msleep 100,
                 Effect.mipi_dsi_dcs_enter_sleep_mode sharp.link1,
                 Effect.mipi_dsi_dcs_enter_sleep_mode sharp.link2,
                 Effect.msleep 150],
              log := s.log })) ∧
    (∀ l, Effect.mipi_dsi_dcs_enter_sleep_mode l ∈
        (sharp_panel_disable env sharp s).2.trace.drop s.trace.length →
      0 ≤ env s.trace (Effect.mipi_dsi_dcs_set_display_off sharp.link1) ∧
      0 ≤ env (s.trace ++ [Effect.mipi_dsi_dcs_set_display_off sharp.link1])
        (Effect.mipi_dsi_dcs_set_display_off sharp.link2)) := by
  refine ⟨disable_refines env sharp s, ?_, ?_, ?_, ?_, ?_⟩
  · intro h1
    simp [sharp_panel_disable, call, dev_err, h1]
  · intro h1 h2
    simp [sharp_panel_disable, call, dev_err, not_lt.mpr h1, h2]
  · intro h1 h2 h3
    simp [sharp_panel_disable, call, call_void, dev_err, not_lt.mpr h1, not_lt.mpr h2, h3]
  · intro h1 h2 h3 h4
    simp [sharp_panel_disable, call, call_void, dev_err, not_lt.mpr h1, not_lt.mpr h2,
      not_lt.mpr h3, h4]
  · by_cases h1 : env s.trace (Effect.mipi_dsi_dcs_set_display_off sharp.link1) < 0
    · simp [sharp_panel_disable, call, dev_err, h1, h1.ne, not_le.mpr h1]
    by_cases h2 : env (s.trace ++ [Effect.mipi_dsi_dcs_set_display_off sharp.link1])
        (Effect.mipi_dsi_dcs_set_display_off sharp.link2) < 0
    · simp [sharp_panel_disable, call, dev_err, h1, h2, h2.ne, not_le.mpr h2]
    by_cases h3 : env (s.trace ++ [Effect.mipi_dsi_dcs_set_display_off sharp.link1,
        Effect.mipi_dsi_dcs_set_display_off sharp.link2, Effect.msleep 100])
        (Effect.mipi_dsi_dcs_enter_sleep_mode sharp.link1) < 0
    · simp [sharp_panel_disable, call, call_void, dev_err, h1, h2, h3, h3.ne, not_le.mpr h3,
        not_lt.mp h1, not_lt.mp h2]
    by_cases h4 : env (s.trace ++ [Effect.mipi_dsi_dcs_set_display_off sharp.link1,
        Effect.mipi_dsi_dcs_set_display_off sharp.link2, Effect.msleep 100,
        Effect.mipi_dsi_dcs_enter_sleep_mode sharp.link1])
        (Effect.mipi_dsi_dcs_enter_sleep_mode sharp.link2) < 0
    · simp [sharp_panel_disable, call, call_void, dev_err, h1, h2, h3, h4, h4.ne,
        not_le.mpr h4, not_lt.mp h1, not_lt.mp h2]
    · simp [sharp_panel_disable, call, call_void, h1, h2, h3, h4, not_lt.mp h1, not_lt.mp h2,
        not_lt.mp h3, not_lt.mp h4]

/-- Witness of C4: enter-sleep on link1 fails with -5 after both display-off
commands succeeded; the trace stops at that command and enter-sleep on link2
and the 150 ms wait are not performed. -/
theorem sharp_panel_disable_spec_witness :
    (0 ≤ env_call_fails (Effect.mipi_dsi_dcs_enter_sleep_mode (Ptr.obj 1)) St.init.trace
        (Effect.mipi_dsi_dcs_set_display_off panel0.link1) ∧
     0 ≤ env_call_fails (Effect.mipi_dsi_dcs_enter_sleep_mode (Ptr.obj 1))
        (St.init.trace ++ [Effect.mipi_dsi_dcs_set_display_off panel0.link1])
        (Effect.mipi_dsi_dcs_set_display_off panel0.link2) ∧
     env_call_fails (Effect.mipi_dsi_dcs_enter_sleep_mode (Ptr.obj 1))
        (St.init.trace ++ [Effect.mipi_dsi_dcs_set_display_off panel0.link1,
          Effect.mipi_dsi_dcs_set_display_off panel0.link2, Effect.msleep 100])
        (Effect.mipi_dsi_dcs_enter_sleep_mode panel0.link1) < 0) ∧
    (sharp_panel_disable (env_call_fails (Effect.mipi_dsi_dcs_enter_sleep_mode (Ptr.obj 1)))
        panel0 St.init).1 = -5 ∧
    (sharp_panel_disable (env_call_fails (Effect.mipi_dsi_dcs_enter_sleep_mode (Ptr.obj 1)))
        panel0 St.init).2.trace =
      [Effect.mipi_dsi_dcs_set_display_off (Ptr.obj 1),
       Effect.mipi_dsi_dcs_set_display_off (Ptr.obj 2),
       Effect.msleep 100,
       Effect.mipi_dsi_dcs_enter_sleep_mode (Ptr.obj 1)] :=
  ⟨by decide,
   (sharp_panel_disable_spec (env_call_fails (Effect.mipi_dsi_dcs_enter_sleep_mode (Ptr.obj 1)))
      panel0 St.init).2.2.2.1 (by decide) (by decide) (by decide)⟩

/-! Display mode -/

/-- C7: `default_mode` has hdisplay 1536, vdisplay 2048, htotal 1728, vtotal
2072, with hdisplay <= hsync_start <= hsync_end <= htotal and vdisplay <=
vsync_start <= vsync_end <= vtotal.  Its clock is the C expression
`1728 * 2072 * 60 / 1000`: neither product leaves the range of a 32-bit
signed `int` (so wrapping changes nothing) and the quotient truncates to
214824.  The refresh rate derived from it,
round(clock * 1000 / (htotal * vtotal)), is 60. -/
theorem default_mode_timing :
    default_mode.hdisplay = 1536 ∧ default_mode.vdisplay = 2048 ∧
    default_mode.htotal = 1728 ∧ default_mode.vtotal = 2072 ∧
    default_mode.hdisplay ≤ default_mode.hsync_start ∧
    default_mode.hsync_start ≤ default_mode.hsync_end ∧
    default_mode.hsync_end ≤ default_mode.htotal ∧
    default_mode.vdisplay ≤ default_mode.vsync_start ∧
    default_mode.vsync_start ≤ default_mode.vsync_end ∧
    default_mode.vsync_end ≤ default_mode.vtotal ∧
    default_mode.clock = c_div (c_mul (c_mul 1728 2072) 60) 1000 ∧
    c_mul 1728 2072 = 1728 * 2072 ∧
    c_mul (c_mul 1728 2072) 60 = 1728 * 2072 * 60 ∧
    (1728 * 2072 * 60 : Int) < 2 ^ 31 ∧
    default_mode.clock = Int.tdiv (1728 * 2072 * 60) 1000 ∧
    default_mode.clock = 214824 ∧
    drm_mode_vrefresh default_mode = 60 ∧
    round (((default_mode.clock : ℚ) * 1000) /
      ((default_mode.htotal : ℚ) * (default_mode.vtotal : ℚ))) = 60 := by
  have hc : default_mode.clock = 214824 := by decide
  have hh : default_mode.htotal = 1728 := by decide
  have hv : default_mode.vtotal = 2072 := by decide
  have hsize : default_mode.hdisplay = 1536 ∧ default_mode.vdisplay = 2048 := by decide
  have hhor : default_mode.hdisplay ≤ default_mode.hsync_start ∧
      default_mode.hsync_start ≤ default_mode.hsync_end ∧
      default_mode.hsync_end ≤ default_mode.htotal := by decide
  have hver : default_mode.vdisplay ≤ default_mode.vsync_start ∧
      default_mode.vsync_start ≤ default_mode.vsync_end ∧
      default_mode.vsync_end ≤ default_mode.vtotal := by decide
  have hwrap : c_mul 1728 2072 = 1728 * 2072 ∧
      c_mul (c_mul 1728 2072) 60 = 1728 * 2072 * 60 ∧
      (1728 * 2072 * 60 : Int) < 2 ^ 31 := by decide
  refine ⟨hsize.1, hsize.2, hh, hv, hhor.1, hhor.2.1, hhor.2.2, hver.1, hver.2.1, hver.2.2,
    by decide, hwrap.1, hwrap.2.1, hwrap.2.2, by decide, hc, by decide, ?_⟩
  rw [hc, hh, hv, round_eq, Int.floor_eq_iff]
  constructor <;> norm_num

/-- C8: when `drm_mode_duplicate` hands out a copy of `default_mode`,
`sharp_panel_get_modes` returns 1, appends exactly one mode to the
connector's probed list, namely `default_mode` with its type set to
`DRM_MODE_TYPE_DRIVER | DRM_MODE_TYPE_PREFERRED` (and its name filled in by
`drm_mode_set_name`), and sets the connector's physical size to 120 mm x
160 mm.  When the duplication fails it returns `-ENOMEM`, and the connector,
probed list and physical size included, is unchanged.  No other value is
ever returned, so a successful call never reports a count other than 1. -/
theorem sharp_panel_get_modes_spec (env : ModeEnv) (connector : drm_connector) (s : St) :
    ((drm_mode_duplicate env default_mode).isSome = true →
      sharp_panel_get_modes env connector s =
        (1,
         { probed_modes := connector.probed_modes ++
             [{ default_mode with
                  name := env.mode_name default_mode,
                  type := DRM_MODE_TYPE_DRIVER ||| DRM_MODE_TYPE_PREFERRED }],
           width_mm := 120,
           height_mm := 160 },
         s)) ∧
    ((drm_mode_duplicate env default_mode).isSome = false →
      (sharp_panel_get_modes env connector s).1 = -ENOMEM ∧
      (sharp_panel_get_modes env connector s).2.1 = connector) ∧
    ((sharp_panel_get_modes env connector s).1 = 1 ∨
      (sharp_panel_get_modes env connector s).1 = -ENOMEM) ∧
    (0 ≤ (sharp_panel_get_modes env connector s).1 →
      (sharp_panel_get_modes env connector s).1 = 1) := by
  cases h : env.alloc_ok
  · simp [sharp_panel_get_modes, drm_mode_duplicate, h, ENOMEM]
  · have hw : default_mode.width_mm = 120 := by decide
    have hh : default_mode.height_mm = 160 := by decide
    simp [sharp_panel_get_modes, drm_mode_duplicate, drm_mode_set_name, drm_mode_probed_add,
      h, hw, hh]

/-- Witness of C8: a successful duplication on an empty connector. -/
theorem sharp_panel_get_modes_spec_witness :
    (drm_mode_duplicate mode_env_ok default_mode).isSome = true ∧
    sharp_panel_get_modes mode_env_ok connector0 St.init =
      (1,
       { probed_modes :=
           [{ default_mode with
                name := mode_env_ok.mode_name default_mode,
                type := DRM_MODE_TYPE_DRIVER ||| DRM_MODE_TYPE_PREFERRED }],
         width_mm := 120,
         height_mm := 160 },
       St.init) :=
  ⟨by decide, (sharp_panel_get_modes_spec mode_env_ok connector0 St.init).1 (by decide)⟩

/-! Rail accounting over the lifecycle -/

theorem probe_defer (env : ProbeEnv) (A B : Nat) (k : Kernel)
    (hA : env.link2 A = Ptr.obj B) (hB : B ∉ k.dsi_bus) :
    (sharp_panel_probe env A k).1 = -EPROBE_DEFER ∧
    (sharp_panel_probe env A k).2.panels = k.panels ∧
    (sharp_panel_probe env A k).2.kzallocs = k.kzallocs ∧
    (sharp_panel_probe env A k).2.heap = k.heap ∧
    (sharp_panel_probe env A k).2.attached = k.attached ∧
    (sharp_panel_probe env A k).2.dsi_bus = k.dsi_bus := by
  simp [sharp_panel_probe, of_parse_phandle, hA, of_find_mipi_dsi_device_by_node, hB,
    of_node_put]

theorem probe_secondary (env : ProbeEnv) (B : Nat) (k : Kernel)
    (hB : env.link2 B = Ptr.null) :
    (sharp_panel_probe env B k).2.panels = k.panels ∧
    (sharp_panel_probe env B k).2.kzallocs = k.kzallocs ∧
    (sharp_panel_probe env B k).2.heap = k.heap ∧
    (sharp_panel_probe env B k).2.dsi_bus = k.dsi_bus ∧
    (sharp_panel_probe env B k).1 = (if env.mipi_dsi_attach B < 0 then env.mipi_dsi_attach B else 0) ∧
    (sharp_panel_probe env B k).2.attached =
      (if env.mipi_dsi_attach B < 0 then k.attached else k.attached ++ [B]) := by
  by_cases h : env.mipi_dsi_attach B < 0
  · simp [sharp_panel_probe, of_parse_phandle, hB, sharp_panel_probe_register,
      sharp_panel_probe_attach, h]
  · simp [sharp_panel_probe, of_parse_phandle, hB, sharp_panel_probe_register,
      sharp_panel_probe_attach, h]

theorem probe_primary (env : ProbeEnv) (A B : Nat) (k : Kernel)
    (hA : env.link2 A = Ptr.obj B) (hB : B ∈ k.dsi_bus)
    (hok : acquisitions_ok env A = true) :
    (sharp_panel_probe env A k).1 = 0 ∧
    (sharp_panel_probe env A k).2.panels = k.panels ++ [k.kzallocs] ∧
    (sharp_panel_probe env A k).2.kzallocs = k.kzallocs + 1 ∧
    (rd (sharp_panel_probe env A k).2 k.kzallocs).link1 = Ptr.obj A ∧
    (rd (sharp_panel_probe env A k).2 k.kzallocs).link2 = Ptr.obj B ∧
    (sharp_panel_probe env A k).2.attached = k.attached ++ [A] ∧
    (sharp_panel_probe env A k).2.drvdata A = Ptr.obj k.kzallocs := by
  simp only [acquisitions_ok, Bool.and_eq_true, Bool.not_eq_true', decide_eq_true_eq] at hok
  obtain ⟨⟨⟨⟨⟨⟨⟨h1, h2⟩, h3⟩, h4⟩, h5⟩, h6⟩, h7⟩, h8⟩ := hok
  simp [sharp_panel_probe, of_parse_phandle, hA, of_find_mipi_dsi_device_by_node, hB,
    of_node_put, sharp_panel_probe_register, devm_kzalloc, h1, sharp_panel_add, rd, wr,
    h2, h3, h4, h5, h6, h7, drm_panel_add, sharp_panel_probe_attach, not_lt.mpr h8]

/-- C9 (as stated) fails: endpoint 1 carries the peer reference to endpoint 2,
which is discoverable and has been probed, but the panel object cannot be
allocated; the probe of endpoint 1 returns `-ENOMEM` and no panel is
registered, in the single probe as in the order B-then-A. -/
theorem probe_without_memory_registers_nothing :
    probe_env_nomem.link2 1 = Ptr.obj 2 ∧ probe_env_nomem.link2 2 = Ptr.null ∧
    2 ∈ (dsi_bus_add 2 kernel0).dsi_bus ∧
    (sharp_panel_probe probe_env_nomem 1 (dsi_bus_add 2 kernel0)).1 = -ENOMEM ∧
    (sharp_panel_probe probe_env_nomem 1 (dsi_bus_add 2 kernel0)).2.panels = [] ∧
    (sharp_panel_probe probe_env_nomem 1
      (sharp_panel_probe probe_env_nomem 2 (dsi_bus_add 2 kernel0)).2).1 = -ENOMEM ∧
    (sharp_panel_probe probe_env_nomem 1
      (sharp_panel_probe probe_env_nomem 2 (dsi_bus_add 2 kernel0)).2).2.panels = [] := by
  refine ⟨by decide, by decide, by decide, by decide, by decide, by decide, by decide⟩

/-- C9 (amended): let endpoint A carry the peer reference ("link2") to
endpoint B and B carry none.  Probing A while B is not discoverable returns
`-EPROBE_DEFER` and allocates no panel, registers none and does not attach.
Probing B never allocates or registers a panel; it only attaches.  Probing
A once B is discoverable, when the panel allocation, the lookups of the four
regulators, of the reset line and of the backlight, and the attach to the
host all succeed, returns 0 and registers exactly one new panel, with
link1 = A and link2 = B.  Under the same condition both orders, A (deferred)
then B then A again, and B then A, end with exactly that one panel added to
the registry. -/
theorem sharp_panel_probe_pair (env : ProbeEnv) (A B : Nat) (k : Kernel)
    (hA : env.link2 A = Ptr.obj B) (hB : env.link2 B = Ptr.null) :
    (B ∉ k.dsi_bus →
      (sharp_panel_probe env A k).1 = -EPROBE_DEFER ∧
      (sharp_panel_probe env A k).2.kzallocs = k.kzallocs ∧
      (sharp_panel_probe env A k).2.panels = k.panels ∧
      (sharp_panel_probe env A k).2.attached = k.attached) ∧
    ((sharp_panel_probe env B k).2.kzallocs = k.kzallocs ∧
      (sharp_panel_probe env B k).2.panels = k.panels ∧
      (sharp_panel_probe env B k).2.heap = k.heap ∧
      (0 ≤ env.mipi_dsi_attach B →
        (sharp_panel_probe env B k).1 = 0 ∧
        (sharp_panel_probe env B k).2.attached = k.attached ++ [B])) ∧
    (B ∈ k.dsi_bus → acquisitions_ok env A = true →
      (sharp_panel_probe env A k).1 = 0 ∧
      (sharp_panel_probe env A k).2.kzallocs = k.kzallocs + 1 ∧
      (sharp_panel_probe env A k).2.panels = k.panels ++ [k.kzallocs] ∧
      (rd (sharp_panel_probe env A k).2 k.kzallocs).link1 = Ptr.obj A ∧
      (rd (sharp_panel_probe env A k).2 k.kzallocs).link2 = Ptr.obj B ∧
      (sharp_panel_probe env A k).2.attached = k.attached ++ [A]) ∧
    (B ∉ k.dsi_bus → acquisitions_ok env A = true →
      (sharp_panel_probe env A k).1 = -EPROBE_DEFER ∧
      (sharp_panel_probe env A
        (sharp_panel_probe env B (dsi_bus_add B (sharp_panel_probe env A k).2)).2).1 = 0 ∧
      (sharp_panel_probe env A
        (sharp_panel_probe env B (dsi_bus_add B (sharp_panel_probe env A k).2)).2).2.panels =
          k.panels ++ [k.kzallocs] ∧
      (rd (sharp_panel_probe env A
        (sharp_panel_probe env B (dsi_bus_add B (sharp_panel_probe env A k).2)).2).2
          k.kzallocs).link1 = Ptr.obj A ∧
      (rd (sharp_panel_probe env A
        (sharp_panel_probe env B (dsi_bus_add B (sharp_panel_probe env A k).2)).2).2
          k.kzallocs).link2 = Ptr.obj B) ∧
    (acquisitions_ok env A = true →
      (sharp_panel_probe env A (sharp_panel_probe env B (dsi_bus_add B k)).2).1 = 0 ∧
      (sharp_panel_probe env A (sharp_panel_probe env B (dsi_bus_add B k)).2).2.panels =
        k.panels ++ [k.kzallocs] ∧
      (rd (sharp_panel_probe env A (sharp_panel_probe env B (dsi_bus_add B k)).2).2
        k.kzallocs).link1 = Ptr.obj A ∧
      (rd (sharp_panel_probe env A (sharp_panel_probe env B (dsi_bus_add B k)).2).2
        k.kzallocs).link2 = Ptr.obj B) := by
  refine ⟨?_, ?_, ?_, ?_, ?_⟩
  · intro hnb
    obtain ⟨h1, h2, h3, _, h5, _⟩ := probe_defer env A B k hA hnb
    exact ⟨h1, h3, h2, h5⟩
  · obtain ⟨h1, h2, h3, _, h5, h6⟩ := probe_secondary env B k hB
    refine ⟨h2, h1, h3, ?_⟩
    intro hat
    rw [h5, h6]
    simp [not_lt.mpr hat]
  · intro hb hok
    obtain ⟨h1, h2, h3, h4, h5, h6, _⟩ := probe_primary env A B k hA hb hok
    exact ⟨h1, h3, h2, h4, h5, h6⟩
  · intro hnb hok
    obtain ⟨d1, d2, d3, _, _, _⟩ := probe_defer env A B k hA hnb
    obtain ⟨s1, s2, _, s4, _, _⟩ :=
      probe_secondary env B (dsi_bus_add B (sharp_panel_probe env A k).2) hB
    have hmem : B ∈ (sharp_panel_probe env B
        (dsi_bus_add B (sharp_panel_probe env A k).2)).2.dsi_bus := by
      rw [s4]; simp [dsi_bus_add]
    obtain ⟨p1, p2, _, p4, p5, _, _⟩ := probe_primary env A B _ hA hmem hok
    have hp : (sharp_panel_probe env B
        (dsi_bus_add B (sharp_panel_probe env A k).2)).2.panels = k.panels := by
      rw [s1]; simpa [dsi_bus_add] using d2
    have hz : (sharp_panel_probe env B
        (dsi_bus_add B (sharp_panel_probe env A k).2)).2.kzallocs = k.kzallocs := by
      rw [s2]; simpa [dsi_bus_add] using d3
    rw [hp, hz] at p2
    rw [hz] at p4 p5
    exact ⟨d1, p1, p2, p4, p5⟩
  · intro hok
    obtain ⟨s1, s2, _, s4, _, _⟩ := probe_secondary env B (dsi_bus_add B k) hB
    have hmem : B ∈ (sharp_panel_probe env B (dsi_bus_add B k)).2.dsi_bus := by
      rw [s4]; simp [dsi_bus_add]
    obtain ⟨p1, p2, _, p4, p5, _, _⟩ := probe_primary env A B _ hA hmem hok
    have hp : (sharp_panel_probe env B (dsi_bus_add B k)).2.panels = k.panels := by
      rw [s1]; simp [dsi_bus_add]
    have hz : (sharp_panel_probe env B (dsi_bus_add B k)).2.kzallocs = k.kzallocs := by
      rw [s2]; simp [dsi_bus_add]
    rw [hp, hz] at p2
    rw [hz] at p4 p5
    exact ⟨p1, p2, p4, p5⟩

/-- Witness of C9 (amended): endpoints 1 and 2 on an empty kernel with every
acquisition succeeding; the order 1 (deferred), 2, 1 ends with the single
panel 0. -/
theorem sharp_panel_probe_pair_witness :
    (probe_env_ok.link2 1 = Ptr.obj 2 ∧ probe_env_ok.link2 2 = Ptr.null ∧
      2 ∉ kernel0.dsi_bus ∧ acquisitions_ok probe_env_ok 1 = true) ∧
    (sharp_panel_probe probe_env_ok 1 kernel0).1 = -EPROBE_DEFER ∧
    (sharp_panel_probe probe_env_ok 1
      (sharp_panel_probe probe_env_ok 2
        (dsi_bus_add 2 (sharp_panel_probe probe_env_ok 1 kernel0).2)).2).1 = 0 ∧
    (sharp_panel_probe probe_env_ok 1
      (sharp_panel_probe probe_env_ok 2
        (dsi_bus_add 2 (sharp_panel_probe probe_env_ok 1 kernel0).2)).2).2.panels =
          kernel0.panels ++ [kernel0.kzallocs] ∧
    (rd (sharp_panel_probe probe_env_ok 1
      (sharp_panel_probe probe_env_ok 2
        (dsi_bus_add 2 (sharp_panel_probe probe_env_ok 1 kernel0).2)).2).2
          kernel0.kzallocs).link1 = Ptr.obj 1 ∧
    (rd (sharp_panel_probe probe_env_ok 1
      (sharp_panel_probe probe_env_ok 2
        (dsi_bus_add 2 (sharp_panel_probe probe_env_ok 1 kernel0).2)).2).2
          kernel0.kzallocs).link2 = Ptr.obj 2 :=
  ⟨by decide,
   (sharp_panel_probe_pair probe_env_ok 1 2 kernel0 (by decide) (by decide)).2.2.2.1
     (by decide) (by decide)⟩

end SharpPanel
